import Mathlib

/-!
Verification of the Microsoft Graph resource-access layer: a shallow
embedding of `applications.py`, `audit_logs.py` and `signin_logs.py`.

Remote calls are modelled as oracle inputs: the result of each
`await client....get()` is a value of type `Call α` (`Except GraphError α`),
and a paging loop consumes a list of such results, one per follow-up
request it issues.  Raw Graph SDK objects are structures of `Option`-typed
fields (Python `None` is `none`; `datetime` values are carried as their
ISO-8601 strings, which is all the code ever extracts from them).  The
normalized output dictionaries are JSON values `J`, so that key sets and
null-freedom of the produced records can be stated directly.
-/

/-- An exception raised by the transport or the Graph SDK. -/
inductive GraphError where
  | mk (msg : String) : GraphError
  deriving DecidableEq

/-- The outcome of one awaited remote call: a value, or a raised error. -/
abbrev Call (α : Type) := Except GraphError α

/-- A Graph collection response: an optional value list and an optional
continuation link (`odata_next_link`). -/
structure GraphResponse (α : Type) where
  value : Option (List α)
  odata_next_link : Option String
  deriving DecidableEq

/-- `if response and response.value: ...extend(response.value)`: the entries
contributed by one (possibly absent) response. -/
def respValues {α : Type} (r : Option (GraphResponse α)) : List α :=
  match r with
  | none => []
  | some resp => resp.value.getD []

/-- JSON values, the shape of every normalized record the layer returns. -/
inductive J where
  | null : J
  | str (s : String) : J
  | bool (b : Bool) : J
  | num (n : Int) : J
  | arr (xs : List J) : J
  | obj (kvs : List (String × J)) : J

/-- The key set of a normalized record (empty for non-objects). -/
def keysOf : J → List String
  | .obj kvs => kvs.map (fun kv => kv.1)
  | _ => []

mutual

/-- `true` iff a JSON value contains no `null` anywhere. -/
def noNullB : J → Bool
  | .null => false
  | .str _ => true
  | .bool _ => true
  | .num _ => true
  | .arr xs => noNullArr xs
  | .obj kvs => noNullObj kvs

/-- `noNullB` over every element of an array. -/
def noNullArr : List J → Bool
  | [] => true
  | x :: xs => noNullB x && noNullArr xs

/-- `noNullB` over every value of an object. -/
def noNullObj : List (String × J) → Bool
  | [] => true
  | (_, v) :: kvs => noNullB v && noNullObj kvs

end

/-- Python `dict` lookup, on an association list whose keys are unique. -/
def dictLookup (m : List (String × J)) (k : String) : Option J :=
  match m with
  | [] => none
  | (k2, v) :: rest => if k2 = k then some v else dictLookup rest k

/-- Value of a key in a normalized record. -/
def jLookup (j : J) (k : String) : Option J :=
  match j with
  | .obj kvs => dictLookup kvs k
  | _ => none

/-- Length of a JSON array (0 for non-arrays). -/
def jArrLen : J → Nat
  | .arr xs => xs.length
  | _ => 0

/-! ## `applications.py` -/

/-- A raw `Application` object as the Graph SDK returns it: every field the
code reads, each possibly `None`. -/
structure RawApp where
  id : Option String := none
  app_id : Option String := none
  display_name : Option String := none
  created_date_time : Option String := none
  sign_in_audience : Option String := none
  publisher_domain : Option String := none
  tags : Option (List String) := none
  deriving DecidableEq

/-- The application dictionary built at `applications.py` lines 29-37 and
identically at lines 50-58: `getattr(app, f, '') or ''` is `Option.getD ""`,
`created_date_time.isoformat() if ... else ''` is `getD ""` on the carried
ISO string, and `getattr(app, 'tags', []) or []` is `getD []`. -/
def appFields (app : RawApp) : List (String × J) :=
  [ ("id", J.str (app.id.getD "")),
    ("appId", J.str (app.app_id.getD "")),
    ("displayName", J.str (app.display_name.getD "")),
    ("createdDateTime", J.str (app.created_date_time.getD "")),
    ("signInAudience", J.str (app.sign_in_audience.getD "")),
    ("publisherDomain", J.str (app.publisher_domain.getD "")),
    ("tags", J.arr ((app.tags.getD []).map J.str)) ]

/-- One formatted application record (`app_data`). -/
def normalizeApplication (app : RawApp) : J := J.obj (appFields app)

/-- The paging loop of `list_applications` (lines 23-26):
`while response is not None and response.odata_next_link and
len(applications) < limit`, fetching the next response from the stream and
extending the accumulator with its values.  A raised transport error
escapes the loop and, via the function's `except ... raise`, the caller. -/
def listAppsLoop (limit : Nat)
    (stream : List (Call (Option (GraphResponse RawApp))))
    (response : Option (GraphResponse RawApp)) (acc : List RawApp) :
    Except GraphError (List RawApp) :=
  match response with
  | none => .ok acc
  | some r =>
    match r.odata_next_link with
    | none => .ok acc
    | some _ =>
      if acc.length < limit then
        match stream with
        | [] => .ok acc
        | .error e :: _ => .error e
        | .ok r2 :: rest => listAppsLoop limit rest r2 (acc ++ respValues r2)
      else .ok acc

/-- `list_applications` (lines 14-42): first response, paging loop, then
`applications[:limit]` formatted.  `first` is the initial
`client.applications.get()`; `stream` the follow-up responses. -/
def list_applications (first : Call (Option (GraphResponse RawApp)))
    (stream : List (Call (Option (GraphResponse RawApp)))) (limit : Nat) :
    Except GraphError (List J) :=
  match first with
  | .error e => .error e
  | .ok resp =>
    match listAppsLoop limit stream resp (respValues resp) with
    | .error e => .error e
    | .ok apps => .ok ((apps.take limit).map normalizeApplication)

/-- A raw service principal; the code only reads its `id`. -/
structure RawServicePrincipal where
  id : Option String := none
  deriving DecidableEq

/-- A raw `appRoleAssignment` object, fields as read at lines 71-81. -/
structure RawAppRoleAssignment where
  id : Option String := none
  created_date_time : Option String := none
  app_role_id : Option String := none
  principal_display_name : Option String := none
  principal_id : Option String := none
  principal_type : Option String := none
  resource_display_name : Option String := none
  resource_id : Option String := none
  deriving DecidableEq

/-- The assignment dictionary of lines 72-81; `str(uuid)` patterns carry the
string directly, so every field is `Option.getD ""`. -/
def normalizeAppRoleAssignment (a : RawAppRoleAssignment) : J :=
  J.obj
    [ ("id", J.str (a.id.getD "")),
      ("createdDateTime", J.str (a.created_date_time.getD "")),
      ("appRoleId", J.str (a.app_role_id.getD "")),
      ("principalDisplayName", J.str (a.principal_display_name.getD "")),
      ("principalId", J.str (a.principal_id.getD "")),
      ("principalType", J.str (a.principal_type.getD "")),
      ("resourceDisplayName", J.str (a.resource_display_name.getD "")),
      ("resourceId", J.str (a.resource_id.getD "")) ]

/-- A raw `oauth2PermissionGrant` object, fields as read at lines 97-104. -/
structure RawOauth2PermissionGrant where
  id : Option String := none
  client_id : Option String := none
  consent_type : Option String := none
  principal_id : Option String := none
  resource_id : Option String := none
  scope : Option String := none
  deriving DecidableEq

/-- The grant dictionary of lines 97-104. -/
def normalizeOauth2PermissionGrant (g : RawOauth2PermissionGrant) : J :=
  J.obj
    [ ("id", J.str (g.id.getD "")),
      ("clientId", J.str (g.client_id.getD "")),
      ("consentType", J.str (g.consent_type.getD "")),
      ("principalId", J.str (g.principal_id.getD "")),
      ("resourceId", J.str (g.resource_id.getD "")),
      ("scope", J.str (g.scope.getD "")) ]

/-- The sub-collection loop at lines 67-85 / 93-108: `while response:`
append the page's normalized entries, then follow `odata_next_link` or
break.  A transport error raised by a follow-up call is caught by the
surrounding `except`, keeping whatever was accumulated so far. -/
def subCollectionLoop {α : Type} (norm : α → J)
    (stream : List (Call (Option (GraphResponse α))))
    (response : Option (GraphResponse α)) (acc : List J) : List J :=
  match response with
  | none => acc
  | some r =>
    let acc2 := acc ++ (r.value.getD []).map norm
    match r.odata_next_link with
    | none => acc2
    | some _ =>
      match stream with
      | [] => acc2
      | .error _ :: _ => acc2
      | .ok r2 :: rest => subCollectionLoop norm rest r2 acc2

/-- One whole sub-collection fetch under its `try ... except logger.warning`
(lines 66-87 / 92-110): an error on the initial call leaves the
accumulator empty; any later error keeps the pages already accumulated. -/
def fetchSubCollection {α : Type} (norm : α → J)
    (first : Call (Option (GraphResponse α)))
    (stream : List (Call (Option (GraphResponse α)))) : List J :=
  match first with
  | .error _ => []
  | .ok resp => subCollectionLoop norm stream resp []

/-- The record `get_application_by_id` returns when the application exists:
the base fields plus the two enrichment keys (lines 88 and 111, or the
`else` branch at lines 113-114). -/
def appRecordWith (app : RawApp) (roles grants : List J) : J :=
  J.obj (appFields app ++
    [("appRoleAssignments", J.arr roles), ("oauth2PermissionGrants", J.arr grants)])

/-- `get_application_by_id` (lines 44-119).  `appCall` is the
`by_application_id(app_id).get()` result; `spCall` the
`get_service_principal_by_app_id` call, which may raise (its exception
reaches the function's outer `except`, which re-raises) or return no
principal; the remaining arguments are the two sub-collection streams. -/
def get_application_by_id (appCall : Call (Option RawApp))
    (spCall : Call (Option RawServicePrincipal))
    (roleFirst : Call (Option (GraphResponse RawAppRoleAssignment)))
    (roleStream : List (Call (Option (GraphResponse RawAppRoleAssignment))))
    (grantFirst : Call (Option (GraphResponse RawOauth2PermissionGrant)))
    (grantStream : List (Call (Option (GraphResponse RawOauth2PermissionGrant)))) :
    Except GraphError (Option J) :=
  match appCall with
  | .error e => .error e
  | .ok none => .ok none
  | .ok (some app) =>
    match spCall with
    | .error e => .error e
    | .ok none => .ok (some (appRecordWith app [] []))
    | .ok (some _) =>
      .ok (some (appRecordWith app
        (fetchSubCollection normalizeAppRoleAssignment roleFirst roleStream)
        (fetchSubCollection normalizeOauth2PermissionGrant grantFirst grantStream)))

/-- The outgoing write request (`app = Application()`): only the fields the
setter chain can touch, all initially unset. -/
structure AppWriteRequest where
  display_name : Option J := none
  sign_in_audience : Option J := none
  tags : Option J := none
  identifier_uris : Option J := none
  web : Option J := none
  api : Option J := none
  required_resource_access : Option J := none

/-- The setter chain of `create_application` (lines 125-140): for each
allowlisted key, `if key in app_data: app.field = app_data[key]`. -/
def create_application_request (app_data : List (String × J)) : AppWriteRequest :=
  let app : AppWriteRequest := {}
  let app := match dictLookup app_data "displayName" with
    | some v => { app with display_name := some v } | none => app
  let app := match dictLookup app_data "signInAudience" with
    | some v => { app with sign_in_audience := some v } | none => app
  let app := match dictLookup app_data "tags" with
    | some v => { app with tags := some v } | none => app
  let app := match dictLookup app_data "identifierUris" with
    | some v => { app with identifier_uris := some v } | none => app
  let app := match dictLookup app_data "web" with
    | some v => { app with web := some v } | none => app
  let app := match dictLookup app_data "api" with
    | some v => { app with api := some v } | none => app
  let app := match dictLookup app_data "requiredResourceAccess" with
    | some v => { app with required_resource_access := some v } | none => app
  app

/-- The identical setter chain of `update_application` (lines 161-176). -/
def update_application_request (app_data : List (String × J)) : AppWriteRequest :=
  let app : AppWriteRequest := {}
  let app := match dictLookup app_data "displayName" with
    | some v => { app with display_name := some v } | none => app
  let app := match dictLookup app_data "signInAudience" with
    | some v => { app with sign_in_audience := some v } | none => app
  let app := match dictLookup app_data "tags" with
    | some v => { app with tags := some v } | none => app
  let app := match dictLookup app_data "identifierUris" with
    | some v => { app with identifier_uris := some v } | none => app
  let app := match dictLookup app_data "web" with
    | some v => { app with web := some v } | none => app
  let app := match dictLookup app_data "api" with
    | some v => { app with api := some v } | none => app
  let app := match dictLookup app_data "requiredResourceAccess" with
    | some v => { app with required_resource_access := some v } | none => app
  app

/-- The write-field allowlist of `create_application`/`update_application`. -/
def appWriteKeys : List String :=
  ["displayName", "signInAudience", "tags", "identifierUris", "web", "api",
   "requiredResourceAccess"]

/-- `delete_application` (lines 184-192): `True` when the remote delete
returns, the logged-and-re-raised error otherwise. -/
def delete_application (deleteCall : Call Unit) : Except GraphError Bool :=
  match deleteCall with
  | .ok _ => .ok true
  | .error e => .error e

/-! ## Time window and query descriptors (`audit_logs.py` lines 14-29,
`signin_logs.py` lines 32-57) -/

/-- A single quote character, as interpolated around `user_id` in the
filter strings. -/
def quoteChar : String := String.singleton (Char.ofNat 39)

/-- Zero-padded two-digit field of `strftime`. -/
def pad2 (n : Nat) : String :=
  if n < 10 then "0" ++ toString n else toString n

/-- Zero-padded four-digit year field of `strftime('%Y...')`. -/
def pad4 (n : Nat) : String :=
  if n < 10 then "000" ++ toString n
  else if n < 100 then "00" ++ toString n
  else if n < 1000 then "0" ++ toString n
  else toString n

/-- Proleptic Gregorian date of a day count since 1970-01-01 (the civil
calendar `datetime` uses), as (year, month, day). -/
def civilFromDays (days : Nat) : Nat × Nat × Nat :=
  let z := days + 719468
  let era := z / 146097
  let doe := z % 146097
  let yoe := (doe - doe / 1460 + doe / 36524 - doe / 146096) / 365
  let doy := doe - (365 * yoe + yoe / 4 - yoe / 100)
  let mp := (5 * doy + 2) / 153
  let d := doy - (153 * mp + 2) / 5 + 1
  let m := if mp < 10 then mp + 3 else mp - 9
  let y := era * 400 + yoe + (if m ≤ 2 then 1 else 0)
  (y, m, d)

/-- `strftime('%Y-%m-%dT%H:%M:%SZ')` on a UTC instant given as seconds
since the epoch: second precision, no fractional seconds, literal `Z`. -/
def fmtTimestamp (t : Nat) : String :=
  let ymd := civilFromDays (t / 86400)
  let secs := t % 86400
  pad4 ymd.1 ++ "-" ++ pad2 ymd.2.1 ++ "-" ++ pad2 ymd.2.2 ++ "T" ++
    pad2 (secs / 3600) ++ ":" ++ pad2 (secs % 3600 / 60) ++ ":" ++
    pad2 (secs % 60) ++ "Z"

/-- `end_date = datetime.now(timezone.utc)` formatted: both log modules. -/
def windowEndStr (now : Nat) : String := fmtTimestamp now

/-- `start_date = end_date - timedelta(days=days)` formatted: both log
modules (`timedelta(days=days)` is exactly `days * 86400` seconds in UTC). -/
def windowStartStr (now days : Nat) : String := fmtTimestamp (now - days * 86400)

/-- The query parameters the request builders receive. -/
structure QueryParams where
  filter : String
  orderby : List String
  top : Nat
  deriving DecidableEq

/-- A request configuration: query parameters plus added headers. -/
structure RequestConfig where
  query_parameters : QueryParams
  headers : List (String × String)
  deriving DecidableEq

/-- The request `get_user_audit_logs` sends (`audit_logs.py` lines 14-29):
window strings, the `initiatedBy/user/id ... activityDateTime` filter,
`orderby=["activityDateTime desc"]`, `top=1000`, and the
`ConsistencyLevel: eventual` header added to the configuration. -/
def audit_request_config (user_id : String) (now days : Nat) : RequestConfig :=
  let start_date_str := windowStartStr now days
  let end_date_str := windowEndStr now
  let filter_query := "initiatedBy/user/id eq " ++ quoteChar ++ user_id ++ quoteChar ++
    " and activityDateTime ge " ++ start_date_str ++
    " and activityDateTime le " ++ end_date_str
  { query_parameters :=
      { filter := filter_query, orderby := ["activityDateTime desc"], top := 1000 },
    headers := [("ConsistencyLevel", "eventual")] }

/-- The request `get_user_sign_in_logs` sends (`signin_logs.py` lines
32-57): window strings, the `createdDateTime ... userId` filter,
`orderby=['createdDateTime desc']`, `top=1000`, and the
`ConsistencyLevel: eventual` header. -/
def signin_request_config (user_id : String) (now days : Nat) : RequestConfig :=
  let start_date_str := windowStartStr now days
  let end_date_str := windowEndStr now
  let filter_query := "createdDateTime ge " ++ start_date_str ++
    " and createdDateTime le " ++ end_date_str ++
    " and userId eq " ++ quoteChar ++ user_id ++ quoteChar
  { query_parameters :=
      { filter := filter_query, orderby := ["createdDateTime desc"], top := 1000 },
    headers := [("ConsistencyLevel", "eventual")] }

/-- `headMatches pat l`: `pat` is an initial segment of `l`. -/
def headMatches : List Char → List Char → Bool
  | [], _ => true
  | _ :: _, [] => false
  | a :: as, b :: bs => a == b && headMatches as bs

/-- `hasSub pat l`: `pat` occurs contiguously inside `l`. -/
def hasSub (pat : List Char) : List Char → Bool
  | [] => headMatches pat []
  | b :: bs => headMatches pat (b :: bs) || hasSub pat bs

/-- `strHasSub s pat`: the string `s` contains `pat` as a substring. -/
def strHasSub (s pat : String) : Bool := hasSub pat.toList s.toList

/-! ## `audit_logs.py` -/

/-- One `{"key": ..., "value": ...}` element of `additional_details`. -/
structure AuditKV where
  key : Option String := none
  value : Option String := none
  deriving DecidableEq

/-- The `initiated_by.user` object (lines 61-63). -/
structure AuditUser where
  id : Option String := none
  display_name : Option String := none
  user_principal_name : Option String := none
  deriving DecidableEq

/-- The `initiated_by.app` object (lines 66-67). -/
structure AuditApp where
  app_id : Option String := none
  display_name : Option String := none
  deriving DecidableEq

/-- The `initiated_by` object (lines 57-68). -/
structure AuditInitiatedBy where
  user : Option AuditUser := none
  app : Option AuditApp := none
  deriving DecidableEq

/-- One `modified_properties` element (lines 80-82). -/
structure AuditModifiedProperty where
  display_name : Option String := none
  old_value : Option String := none
  new_value : Option String := none
  deriving DecidableEq

/-- One `target_resources` element (lines 72-87). -/
structure AuditTargetResource where
  id : Option String := none
  display_name : Option String := none
  type : Option String := none
  user_principal_name : Option String := none
  modified_properties : Option (List AuditModifiedProperty) := none
  deriving DecidableEq

/-- A raw directory audit log entry, fields as read at lines 40-87. -/
structure RawAudit where
  id : Option String := none
  activity_date_time : Option String := none
  activity_display_name : Option String := none
  category : Option String := none
  operation_type : Option String := none
  result : Option String := none
  result_reason : Option String := none
  logged_by_service : Option String := none
  correlation_id : Option String := none
  additional_details : Option (List AuditKV) := none
  initiated_by : Option AuditInitiatedBy := none
  target_resources : Option (List AuditTargetResource) := none
  deriving DecidableEq

/-- The `additional_details` comprehension body (line 53). -/
def normalizeAuditKV (kv : AuditKV) : J :=
  J.obj [("key", J.str (kv.key.getD "")), ("value", J.str (kv.value.getD ""))]

/-- The `initiatedBy` replacement value (lines 57-69): `{}` when absent,
otherwise nested user/app objects, each `{}` when absent. -/
def normalizeInitiatedBy (ib : Option AuditInitiatedBy) : J :=
  match ib with
  | none => J.obj []
  | some b =>
    J.obj
      [ ("user",
          match b.user with
          | none => J.obj []
          | some u =>
            J.obj [ ("id", J.str (u.id.getD "")),
                    ("displayName", J.str (u.display_name.getD "")),
                    ("userPrincipalName", J.str (u.user_principal_name.getD "")) ]),
        ("app",
          match b.app with
          | none => J.obj []
          | some a =>
            J.obj [ ("appId", J.str (a.app_id.getD "")),
                    ("displayName", J.str (a.display_name.getD "")) ]) ]

/-- The `modifiedProperties` comprehension body (lines 80-82). -/
def normalizeModifiedProperty (mp : AuditModifiedProperty) : J :=
  J.obj [ ("displayName", J.str (mp.display_name.getD "")),
          ("oldValue", J.str (mp.old_value.getD "")),
          ("newValue", J.str (mp.new_value.getD "")) ]

/-- The `targetResources` comprehension body (lines 73-85). -/
def normalizeTargetResource (tr : AuditTargetResource) : J :=
  J.obj [ ("id", J.str (tr.id.getD "")),
          ("displayName", J.str (tr.display_name.getD "")),
          ("type", J.str (tr.type.getD "")),
          ("userPrincipalName", J.str (tr.user_principal_name.getD "")),
          ("modifiedProperties",
            J.arr ((tr.modified_properties.getD []).map normalizeModifiedProperty)) ]

/-- One formatted audit log record (`log_data`, lines 40-87): the base
dictionary of lines 40-55 whose `initiatedBy` and `targetResources`
entries are then overwritten in place when the source fields are present. -/
def normalizeAuditLog (log : RawAudit) : J :=
  J.obj
    [ ("id", J.str (log.id.getD "")),
      ("activityDateTime", J.str (log.activity_date_time.getD "")),
      ("activityDisplayName", J.str (log.activity_display_name.getD "")),
      ("category", J.str (log.category.getD "")),
      ("operationType", J.str (log.operation_type.getD "")),
      ("result", J.str (log.result.getD "")),
      ("resultReason", J.str (log.result_reason.getD "")),
      ("initiatedBy", normalizeInitiatedBy log.initiated_by),
      ("targetResources",
        J.arr ((log.target_resources.getD []).map normalizeTargetResource)),
      ("loggedByService", J.str (log.logged_by_service.getD "")),
      ("correlationId", J.str (log.correlation_id.getD "")),
      ("additionalDetails",
        J.arr ((log.additional_details.getD []).map normalizeAuditKV)) ]

/-- The paging loop of `get_user_audit_logs` (lines 34-37):
`while response is not None and response.odata_next_link`, with no limit;
a raised transport error escapes to the caller. -/
def auditPageLoop (stream : List (Call (Option (GraphResponse RawAudit))))
    (response : Option (GraphResponse RawAudit)) (acc : List RawAudit) :
    Except GraphError (List RawAudit) :=
  match response with
  | none => .ok acc
  | some r =>
    match r.odata_next_link with
    | none => .ok acc
    | some _ =>
      match stream with
      | [] => .ok acc
      | .error e :: _ => .error e
      | .ok r2 :: rest => auditPageLoop rest r2 (acc ++ respValues r2)

/-- `get_user_audit_logs` (lines 10-92): initial response, paging to
exhaustion, then every accumulated entry formatted. -/
def get_user_audit_logs (first : Call (Option (GraphResponse RawAudit)))
    (stream : List (Call (Option (GraphResponse RawAudit)))) :
    Except GraphError (List J) :=
  match first with
  | .error e => .error e
  | .ok resp =>
    match auditPageLoop stream resp (respValues resp) with
    | .error e => .error e
    | .ok logs => .ok (logs.map normalizeAuditLog)

/-! ## `signin_logs.py` -/

/-- The `log.status` object (lines 82-84). -/
structure SignInStatus where
  error_code : Option Int := none
  failure_reason : Option String := none
  additional_details : Option String := none
  deriving DecidableEq

/-- The `log.device_detail` object (lines 96-106). -/
structure SignInDeviceDetail where
  device_id : Option String := none
  display_name : Option String := none
  operating_system : Option String := none
  browser : Option String := none
  is_compliant : Option Bool := none
  is_managed : Option Bool := none
  trust_type : Option String := none
  deriving DecidableEq

/-- The `location.geo_coordinates` object (lines 119-123); the floats are
carried opaquely as integers, only their presence matters here. -/
structure SignInGeo where
  latitude : Option Int := none
  longitude : Option Int := none
  deriving DecidableEq

/-- The `log.location` object (lines 109-123). -/
structure SignInLocation where
  city : Option String := none
  state : Option String := none
  country_or_region : Option String := none
  geo_coordinates : Option SignInGeo := none
  deriving DecidableEq

/-- A raw sign-in log entry, fields as read at lines 68-123; enum-valued
risk fields carry their `str(...)` form. -/
structure RawSignIn where
  id : Option String := none
  created_date_time : Option String := none
  user_id : Option String := none
  user_display_name : Option String := none
  user_principal_name : Option String := none
  app_display_name : Option String := none
  app_id : Option String := none
  ip_address : Option String := none
  client_app_used : Option String := none
  correlation_id : Option String := none
  is_interactive : Option Bool := none
  resource_display_name : Option String := none
  status : Option SignInStatus := none
  risk_detail : Option String := none
  risk_level_aggregated : Option String := none
  risk_level_during_sign_in : Option String := none
  risk_state : Option String := none
  risk_event_types_v2 : Option (List String) := none
  device_detail : Option SignInDeviceDetail := none
  location : Option SignInLocation := none
  deriving DecidableEq

/-- The `status` value (lines 81-85).  `errorCode` falls back to `0`, but
`failureReason` and `additionalDetails` are `log.status.<field> if
log.status else ''`: when `status` is present the raw field is passed
through unchanged, so an absent field becomes JSON `null`. -/
def normalizeSignInStatus (st : Option SignInStatus) : J :=
  J.obj
    [ ("errorCode",
        J.num (match st with
          | none => 0
          | some s => s.error_code.getD 0)),
      ("failureReason",
        match st with
        | none => J.str ""
        | some s =>
          match s.failure_reason with
          | none => J.null
          | some v => J.str v),
      ("additionalDetails",
        match st with
        | none => J.str ""
        | some s =>
          match s.additional_details with
          | none => J.null
          | some v => J.str v) ]

/-- The `riskInformation` value (lines 86-92). -/
def normalizeRiskInformation (log : RawSignIn) : J :=
  J.obj
    [ ("riskDetail", J.str (log.risk_detail.getD "")),
      ("riskLevelAggregated", J.str (log.risk_level_aggregated.getD "")),
      ("riskLevelDuringSignIn", J.str (log.risk_level_during_sign_in.getD "")),
      ("riskState", J.str (log.risk_state.getD "")),
      ("riskEventTypes", J.arr ((log.risk_event_types_v2.getD []).map J.str)) ]

/-- The `deviceDetail` value (lines 98-106), built only when the source
field is present. -/
def normalizeDeviceDetail (d : SignInDeviceDetail) : J :=
  J.obj
    [ ("deviceId", J.str (d.device_id.getD "")),
      ("displayName", J.str (d.display_name.getD "")),
      ("operatingSystem", J.str (d.operating_system.getD "")),
      ("browser", J.str (d.browser.getD "")),
      ("isCompliant", J.bool (d.is_compliant.getD false)),
      ("isManaged", J.bool (d.is_managed.getD false)),
      ("trustType", J.str (d.trust_type.getD "")) ]

/-- The `location` value (lines 111-123), built only when the source field
is present; `coordinates` is `{}` until `geo_coordinates` is present. -/
def normalizeLocation (loc : SignInLocation) : J :=
  J.obj
    [ ("city", J.str (loc.city.getD "")),
      ("state", J.str (loc.state.getD "")),
      ("countryOrRegion", J.str (loc.country_or_region.getD "")),
      ("coordinates",
        match loc.geo_coordinates with
        | none => J.obj []
        | some g =>
          J.obj [ ("latitude", J.num (g.latitude.getD 0)),
                  ("longitude", J.num (g.longitude.getD 0)) ]) ]

/-- One formatted sign-in record (`log_data`, lines 68-123): fourteen base
keys, then `deviceDetail` and `location` appended only when the raw object
carries them. -/
def normalizeSignInLog (log : RawSignIn) : J :=
  J.obj
    ([ ("id", J.str (log.id.getD "")),
       ("createdDateTime", J.str (log.created_date_time.getD "")),
       ("userId", J.str (log.user_id.getD "")),
       ("userDisplayName", J.str (log.user_display_name.getD "")),
       ("userPrincipalName", J.str (log.user_principal_name.getD "")),
       ("appDisplayName", J.str (log.app_display_name.getD "")),
       ("appId", J.str (log.app_id.getD "")),
       ("ipAddress", J.str (log.ip_address.getD "")),
       ("clientAppUsed", J.str (log.client_app_used.getD "")),
       ("correlationId", J.str (log.correlation_id.getD "")),
       ("isInteractive", J.bool (log.is_interactive.getD false)),
       ("resourceDisplayName", J.str (log.resource_display_name.getD "")),
       ("status", normalizeSignInStatus log.status),
       ("riskInformation", normalizeRiskInformation log) ] ++
     (match log.device_detail with
      | none => []
      | some d => [("deviceDetail", normalizeDeviceDetail d)]) ++
     (match log.location with
      | none => []
      | some loc => [("location", normalizeLocation loc)]))

/-- `get_user_sign_in_logs` (lines 17-136): a single
`client.audit_logs.sign_ins.get(...)` whose value list is formatted entry
by entry.  The function issues no follow-up request: `stream`, the
responses the server would have for continuation calls, is never
consulted, and the response's `odata_next_link` is never read. -/
def get_user_sign_in_logs (first : Call (Option (GraphResponse RawSignIn)))
    (_stream : List (Call (Option (GraphResponse RawSignIn)))) :
    Except GraphError (List J) :=
  match first with
  | .error e => .error e
  | .ok resp => .ok ((respValues resp).map normalizeSignInLog)

/-! ## Well-formed server page streams -/

/-- A response carrying the page `v`, with a continuation link iff `more`. -/
def mkResp {α : Type} (v : List α) (more : Bool) : GraphResponse α :=
  { value := some v, odata_next_link := if more then some "next" else none }

/-- The follow-up responses of a server holding the given pages: every
response bears a continuation link except the last. -/
def mkStream {α : Type} : List (List α) → List (Call (Option (GraphResponse α)))
  | [] => []
  | [p] => [.ok (some (mkResp p false))]
  | p :: q :: rest => .ok (some (mkResp p true)) :: mkStream (q :: rest)

theorem mkStream_cons {α : Type} (p : List α) (rest : List (List α)) :
    mkStream (p :: rest) = .ok (some (mkResp p (!rest.isEmpty))) :: mkStream rest := by
  cases rest <;> rfl

theorem respValues_mkResp {α : Type} (v : List α) (m : Bool) :
    respValues (some (mkResp v m)) = v := rfl

/-! ## Pagination lemmas -/

theorem auditPageLoop_mkStream :
    ∀ (rest : List (List RawAudit)) (v : List RawAudit) (acc : List RawAudit),
      auditPageLoop (mkStream rest) (some (mkResp v (!rest.isEmpty))) acc =
        .ok (acc ++ rest.join) := by
  intro rest
  induction rest with
  | nil =>
    intro v acc
    simp [auditPageLoop, mkResp, mkStream]
  | cons p rest ih =>
    intro v acc
    rw [mkStream_cons]
    have h1 : (!(p :: rest).isEmpty) = true := by simp
    rw [h1]
    show auditPageLoop _ (some (mkResp v true)) acc = _
    rw [show auditPageLoop (Except.ok (some (mkResp p (!rest.isEmpty))) :: mkStream rest)
          (some (mkResp v true)) acc =
        auditPageLoop (mkStream rest) (some (mkResp p (!rest.isEmpty)))
          (acc ++ respValues (some (mkResp p (!rest.isEmpty)))) from rfl]
    rw [ih, respValues_mkResp]
    simp

theorem listAppsLoop_mkStream (limit : Nat) :
    ∀ (rest : List (List RawApp)) (v : List RawApp) (acc : List RawApp),
      Except.map (fun l => List.take limit l)
          (listAppsLoop limit (mkStream rest) (some (mkResp v (!rest.isEmpty))) acc) =
        .ok ((acc ++ rest.join).take limit) := by
  intro rest
  induction rest with
  | nil =>
    intro v acc
    simp [listAppsLoop, mkResp, mkStream, Except.map]
  | cons p rest ih =>
    intro v acc
    rw [mkStream_cons]
    have h1 : (!(p :: rest).isEmpty) = true := by simp
    rw [h1]
    by_cases hlt : acc.length < limit
    · rw [show listAppsLoop limit (Except.ok (some (mkResp p (!rest.isEmpty))) :: mkStream rest)
            (some (mkResp v true)) acc =
          (if acc.length < limit then
            listAppsLoop limit (mkStream rest) (some (mkResp p (!rest.isEmpty)))
              (acc ++ respValues (some (mkResp p (!rest.isEmpty))))
          else .ok acc) from rfl]
      rw [if_pos hlt, respValues_mkResp, ih]
      simp
    · rw [show listAppsLoop limit (Except.ok (some (mkResp p (!rest.isEmpty))) :: mkStream rest)
            (some (mkResp v true)) acc =
          (if acc.length < limit then
            listAppsLoop limit (mkStream rest) (some (mkResp p (!rest.isEmpty)))
              (acc ++ respValues (some (mkResp p (!rest.isEmpty))))
          else .ok acc) from rfl]
      rw [if_neg hlt]
      have hle : limit ≤ acc.length := Nat.le_of_not_lt hlt
      simp [Except.map, List.take_append_eq_append_take, Nat.sub_eq_zero_of_le hle]

/-! ## Sample objects for concrete instances -/

/-- A concrete application object. -/
def sampleApp : RawApp :=
  { id := some "obj-1", app_id := some "client-1", display_name := some "App One" }

/-- A second concrete application object. -/
def sampleApp2 : RawApp :=
  { id := some "obj-2", app_id := some "client-2" }

/-- A concrete service principal. -/
def sampleSP : RawServicePrincipal := { id := some "sp-1" }

/-- A concrete app role assignment. -/
def sampleAssignment : RawAppRoleAssignment := { id := some "assign-1" }

/-- A concrete sign-in log entry. -/
def sampleSignIn0 : RawSignIn := { id := some "s0" }

/-- A second concrete sign-in log entry. -/
def sampleSignIn1 : RawSignIn := { id := some "s1" }

/-! ## Claim theorems: error handling of `get_application_by_id` -/

/-- Claim C1 counterexample: with the top-level application fetch
succeeding and the service-principal resolution raising, the operation
returns that error — it does not return the application record with empty
enrichment lists, and the error does propagate to the caller. -/
theorem c1_counterexample :
    get_application_by_id (.ok (some sampleApp)) (.error (GraphError.mk "boom"))
        (.ok none) [] (.ok none) [] = .error (GraphError.mk "boom") ∧
    (Except.error (GraphError.mk "boom") ≠
      (Except.ok (some (appRecordWith sampleApp [] [])) : Except GraphError (Option J))) := by
  exact ⟨rfl, by simp⟩

/-- Claim C1 (amended): an error raised while resolving the service
principal propagates to the caller exactly like a top-level failure; only
a resolution that succeeds but finds no principal yields the application
record with both enrichment lists empty. -/
theorem c1_sp_resolution_error_propagates :
    ∀ (app : RawApp) (e : GraphError) roleFirst roleStream grantFirst grantStream,
      get_application_by_id (.ok (some app)) (.error e)
          roleFirst roleStream grantFirst grantStream = .error e ∧
      get_application_by_id (.ok (some app)) (.ok none)
          roleFirst roleStream grantFirst grantStream =
        .ok (some (appRecordWith app [] [])) :=
  fun _ _ _ _ _ _ => ⟨rfl, rfl⟩

/-- Claim C4 counterexample: when the first appRoleAssignments page
succeeds with one entry and carries a continuation link, and the follow-up
call raises, the overall fetch still succeeds but the `appRoleAssignments`
value keeps the already-accumulated entry — it is not an empty list. -/
theorem c4_counterexample :
    get_application_by_id (.ok (some sampleApp)) (.ok (some sampleSP))
        (.ok (some { value := some [sampleAssignment], odata_next_link := some "next" }))
        [.error (GraphError.mk "net")] (.ok none) [] =
      .ok (some (appRecordWith sampleApp [normalizeAppRoleAssignment sampleAssignment] [])) ∧
    jLookup (appRecordWith sampleApp [normalizeAppRoleAssignment sampleAssignment] [])
        "appRoleAssignments" = some (J.arr [normalizeAppRoleAssignment sampleAssignment]) ∧
    jArrLen (J.arr [normalizeAppRoleAssignment sampleAssignment]) = 1 := by
  exact ⟨rfl, rfl, rfl⟩

/-- Claim C4 (amended): an error raised while fetching either
sub-collection is caught and never propagates — the overall fetch
succeeds whatever the sub-collection streams hold; the affected key's
value is the entries accumulated before the failure, which is the empty
list exactly when the initial sub-collection call raises. -/
theorem c4_subcollection_failure_isolated :
    ∀ (app : RawApp) (sp : RawServicePrincipal) (e : GraphError)
      roleFirst roleStream grantFirst grantStream,
      get_application_by_id (.ok (some app)) (.ok (some sp))
          roleFirst roleStream grantFirst grantStream =
        .ok (some (appRecordWith app
          (fetchSubCollection normalizeAppRoleAssignment roleFirst roleStream)
          (fetchSubCollection normalizeOauth2PermissionGrant grantFirst grantStream))) ∧
      fetchSubCollection normalizeAppRoleAssignment
          (.error e) roleStream = [] ∧
      fetchSubCollection normalizeOauth2PermissionGrant
          (.error e) grantStream = [] ∧
      get_application_by_id (.ok (some app)) (.ok (some sp))
          (.error e) roleStream grantFirst grantStream =
        .ok (some (appRecordWith app []
          (fetchSubCollection normalizeOauth2PermissionGrant grantFirst grantStream))) ∧
      get_application_by_id (.ok (some app)) (.ok (some sp))
          roleFirst roleStream (.error e) grantStream =
        .ok (some (appRecordWith app
          (fetchSubCollection normalizeAppRoleAssignment roleFirst roleStream) [])) :=
  fun _ _ _ _ _ _ _ => ⟨rfl, rfl, rfl, rfl, rfl⟩

/-- Claim C9: when the transport returns no object for the requested id,
`get_application_by_id` returns the absent value, not an error, whatever
the enrichment inputs would have been. -/
theorem c9_get_application_not_found :
    ∀ spCall roleFirst roleStream grantFirst grantStream,
      get_application_by_id (.ok none) spCall
          roleFirst roleStream grantFirst grantStream = .ok none :=
  fun _ _ _ _ _ => rfl

/-- Claim C10: `delete_application` maps a completed remote delete to
`True` and re-raises every error; the only successful value is `true`,
so the boolean carries no failure information. -/
theorem c10_delete_application_result :
    (∀ r : Call Unit, delete_application r = Except.map (fun _ => true) r) ∧
    delete_application (.ok ()) = .ok true ∧
    (∀ e : GraphError, delete_application (.error e) = .error e) := by
  refine ⟨fun r => ?_, rfl, fun e => rfl⟩
  cases r <;> rfl

/-! ## Claim theorems: pagination -/

/-- Claim C5: over a server holding pages `p0 :: rest` (each response bears
a continuation link except the last), `list_applications` returns the
page-order concatenation truncated to `limit`: the whole concatenation
when it has at most `limit` entries, and exactly `limit` records when the
total exceeds `limit` (whole pages are fetched, then the accumulated
sequence is truncated). -/
theorem c5_list_applications_pagination :
    ∀ (p0 : List RawApp) (rest : List (List RawApp)) (limit : Nat),
      list_applications (.ok (some (mkResp p0 (!rest.isEmpty)))) (mkStream rest) limit =
        .ok ((((p0 :: rest).join).take limit).map normalizeApplication) ∧
      (((p0 :: rest).join).length ≤ limit →
        list_applications (.ok (some (mkResp p0 (!rest.isEmpty)))) (mkStream rest) limit =
          .ok (((p0 :: rest).join).map normalizeApplication)) ∧
      (limit < ((p0 :: rest).join).length →
        ((((p0 :: rest).join).take limit).map normalizeApplication).length = limit) := by
  intro p0 rest limit
  have hmain : list_applications (.ok (some (mkResp p0 (!rest.isEmpty)))) (mkStream rest) limit =
      .ok ((((p0 :: rest).join).take limit).map normalizeApplication) := by
    have hloop := listAppsLoop_mkStream limit rest p0 p0
    rw [show list_applications (.ok (some (mkResp p0 (!rest.isEmpty)))) (mkStream rest) limit =
        (match listAppsLoop limit (mkStream rest) (some (mkResp p0 (!rest.isEmpty)))
            (respValues (some (mkResp p0 (!rest.isEmpty)))) with
          | .error e => .error e
          | .ok apps => .ok ((apps.take limit).map normalizeApplication)) from rfl]
    rw [respValues_mkResp]
    cases hres : listAppsLoop limit (mkStream rest) (some (mkResp p0 (!rest.isEmpty))) p0 with
    | error e => rw [hres] at hloop; simp [Except.map] at hloop
    | ok apps =>
      rw [hres] at hloop
      simp only [Except.map] at hloop
      have htake : apps.take limit = (p0 ++ rest.join).take limit := by
        exact Except.ok.inj hloop
      simp [htake, List.join]
  refine ⟨hmain, fun hle => ?_, fun hlt => ?_⟩
  · rw [hmain, List.take_of_length_le hle]
  · rw [List.length_map, List.length_take]
    exact Nat.min_eq_left (Nat.le_of_lt hlt)

/-- Claim C5 witness: two pages of one entry each; with limit 5 both
records come back, with limit 1 exactly one record comes back. -/
theorem c5_witness :
    list_applications (.ok (some (mkResp [sampleApp] true))) (mkStream [[sampleApp2]]) 5 =
      .ok ((([sampleApp] :: [[sampleApp2]]).join).map normalizeApplication) ∧
    (((([sampleApp] :: [[sampleApp2]]).join).take 1).map normalizeApplication).length = 1 := by
  constructor
  · exact (c5_list_applications_pagination [sampleApp] [[sampleApp2]] 5).2.1 (by decide)
  · exact (c5_list_applications_pagination [sampleApp] [[sampleApp2]] 1).2.2 (by decide)

/-- Claim C3 counterexample: a sign-in response with one entry and a
continuation link, with a second page available on the server, yields only
the first page's record: the second fetched-able entry is dropped and no
follow-up call is made. -/
theorem c3_counterexample :
    get_user_sign_in_logs
        (.ok (some { value := some [sampleSignIn0], odata_next_link := some "next" }))
        [.ok (some { value := some [sampleSignIn1], odata_next_link := none })] =
      .ok [normalizeSignInLog sampleSignIn0] ∧
    [normalizeSignInLog sampleSignIn0].length = 1 ∧
    ([[sampleSignIn0], [sampleSignIn1]].join).length = 2 := ⟨rfl, rfl, rfl⟩

/-- Claim C3 (amended): `get_user_audit_logs` drives get-next-page calls
until exhaustion with no limit, returning the concatenation of every page;
`get_user_sign_in_logs` issues only the initial request — its result
depends only on the first response, whose value list alone is returned,
continuation link and available follow-up pages notwithstanding. -/
theorem c3_pagination_behavior :
    ∀ (p0 : List RawAudit) (rest : List (List RawAudit))
      (first : Call (Option (GraphResponse RawSignIn)))
      (s1 s2 : List (Call (Option (GraphResponse RawSignIn))))
      (vs : List RawSignIn) (nl : Option String),
      get_user_audit_logs (.ok (some (mkResp p0 (!rest.isEmpty)))) (mkStream rest) =
        .ok (((p0 :: rest).join).map normalizeAuditLog) ∧
      get_user_sign_in_logs first s1 = get_user_sign_in_logs first s2 ∧
      get_user_sign_in_logs (.ok (some { value := some vs, odata_next_link := nl })) s1 =
        .ok (vs.map normalizeSignInLog) := by
  intro p0 rest first s1 s2 vs nl
  refine ⟨?_, rfl, rfl⟩
  rw [show get_user_audit_logs (.ok (some (mkResp p0 (!rest.isEmpty)))) (mkStream rest) =
      (match auditPageLoop (mkStream rest) (some (mkResp p0 (!rest.isEmpty)))
          (respValues (some (mkResp p0 (!rest.isEmpty)))) with
        | .error e => .error e
        | .ok logs => .ok (logs.map normalizeAuditLog)) from rfl]
  rw [respValues_mkResp, auditPageLoop_mkStream]
  simp [List.join]

/-! ## Claim theorems: time window and query descriptors -/

/-- Claim C7: with `now` fixed at 2024-01-08T00:00:00Z (epoch second
1704672000) and `days = 7`, the window end is `2024-01-08T00:00:00Z`, the
start (`end` minus 7 days) is `2024-01-01T00:00:00Z` — second precision,
no fractional seconds, `Z` suffix — and both literal timestamps occur in
the audit-log and sign-in-log filter strings. -/
theorem c7_time_window :
    windowEndStr 1704672000 = "2024-01-08T00:00:00Z" ∧
    windowStartStr 1704672000 7 = "2024-01-01T00:00:00Z" ∧
    strHasSub (audit_request_config "u1" 1704672000 7).query_parameters.filter
      "2024-01-01T00:00:00Z" = true ∧
    strHasSub (audit_request_config "u1" 1704672000 7).query_parameters.filter
      "2024-01-08T00:00:00Z" = true ∧
    strHasSub (signin_request_config "u1" 1704672000 7).query_parameters.filter
      "2024-01-01T00:00:00Z" = true ∧
    strHasSub (signin_request_config "u1" 1704672000 7).query_parameters.filter
      "2024-01-08T00:00:00Z" = true := by
  refine ⟨?_, ?_, ?_, ?_, ?_, ?_⟩ <;> decide

/-- Claim C8: for every user id and window, the audit-log request filters
on `initiatedBy/user/id` and an `activityDateTime` range and the sign-in
request on a `createdDateTime` range and `userId`; each orders by its
primary timestamp field descending, asks for a page size of 1000, and
attaches the `ConsistencyLevel: eventual` header. -/
theorem c8_log_query_descriptor :
    ∀ (user_id : String) (now days : Nat),
      (audit_request_config user_id now days).query_parameters.filter =
        "initiatedBy/user/id eq " ++ quoteChar ++ user_id ++ quoteChar ++
          " and activityDateTime ge " ++ windowStartStr now days ++
          " and activityDateTime le " ++ windowEndStr now ∧
      (audit_request_config user_id now days).query_parameters.orderby =
        ["activityDateTime desc"] ∧
      (audit_request_config user_id now days).query_parameters.top = 1000 ∧
      (audit_request_config user_id now days).headers =
        [("ConsistencyLevel", "eventual")] ∧
      (signin_request_config user_id now days).query_parameters.filter =
        "createdDateTime ge " ++ windowStartStr now days ++
          " and createdDateTime le " ++ windowEndStr now ++
          " and userId eq " ++ quoteChar ++ user_id ++ quoteChar ∧
      (signin_request_config user_id now days).query_parameters.orderby =
        ["createdDateTime desc"] ∧
      (signin_request_config user_id now days).query_parameters.top = 1000 ∧
      (signin_request_config user_id now days).headers =
        [("ConsistencyLevel", "eventual")] :=
  fun _ _ _ => ⟨rfl, rfl, rfl, rfl, rfl, rfl, rfl, rfl⟩

/-! ## Write-request lemmas -/

theorem dictLookup_cons_ne (k2 k : String) (v : J) (m : List (String × J))
    (h : k2 ≠ k) : dictLookup ((k2, v) :: m) k = dictLookup m k := by
  simp [dictLookup, h]

/-- The setter chain of `create_application` leaves each request field
exactly the input mapping's value at its allowlisted key. -/
theorem create_request_fields (m : List (String × J)) :
    create_application_request m =
      { display_name := dictLookup m "displayName",
        sign_in_audience := dictLookup m "signInAudience",
        tags := dictLookup m "tags",
        identifier_uris := dictLookup m "identifierUris",
        web := dictLookup m "web",
        api := dictLookup m "api",
        required_resource_access := dictLookup m "requiredResourceAccess" } := by
  unfold create_application_request
  rcases h1 : dictLookup m "displayName" with _ | v1 <;>
  rcases h2 : dictLookup m "signInAudience" with _ | v2 <;>
  rcases h3 : dictLookup m "tags" with _ | v3 <;>
  rcases h4 : dictLookup m "identifierUris" with _ | v4 <;>
  rcases h5 : dictLookup m "web" with _ | v5 <;>
  rcases h6 : dictLookup m "api" with _ | v6 <;>
  rcases h7 : dictLookup m "requiredResourceAccess" with _ | v7 <;>
  simp [h1, h2, h3, h4, h5, h6, h7]

/-- `update_application` builds its request with the identical chain. -/
theorem update_request_eq_create :
    update_application_request = create_application_request := rfl

/-- Claim C6: only the seven allowlisted keys are copied onto the outgoing
write request by `create_application`/`update_application`; a mapping
entry under any other key is silently ignored and each request field holds
exactly the mapping's value at its own allowlisted key (unset when the key
is absent). -/
theorem c6_write_allowlist (m : List (String × J)) (k : String) (v : J)
    (h : k ∉ appWriteKeys) :
    create_application_request ((k, v) :: m) = create_application_request m ∧
    update_application_request ((k, v) :: m) = update_application_request m ∧
    create_application_request m =
      { display_name := dictLookup m "displayName",
        sign_in_audience := dictLookup m "signInAudience",
        tags := dictLookup m "tags",
        identifier_uris := dictLookup m "identifierUris",
        web := dictLookup m "web",
        api := dictLookup m "api",
        required_resource_access := dictLookup m "requiredResourceAccess" } ∧
    update_application_request m =
      { display_name := dictLookup m "displayName",
        sign_in_audience := dictLookup m "signInAudience",
        tags := dictLookup m "tags",
        identifier_uris := dictLookup m "identifierUris",
        web := dictLookup m "web",
        api := dictLookup m "api",
        required_resource_access := dictLookup m "requiredResourceAccess" } := by
  simp only [appWriteKeys, List.mem_cons, List.not_mem_nil, or_false] at h
  push_neg at h
  obtain ⟨h1, h2, h3, h4, h5, h6, h7⟩ := h
  have hfront : create_application_request ((k, v) :: m) = create_application_request m := by
    rw [create_request_fields, create_request_fields]
    rw [dictLookup_cons_ne _ _ _ _ h1, dictLookup_cons_ne _ _ _ _ h2,
        dictLookup_cons_ne _ _ _ _ h3, dictLookup_cons_ne _ _ _ _ h4,
        dictLookup_cons_ne _ _ _ _ h5, dictLookup_cons_ne _ _ _ _ h6,
        dictLookup_cons_ne _ _ _ _ h7]
  exact ⟨hfront, by rw [update_request_eq_create]; exact hfront,
    create_request_fields m, by rw [update_request_eq_create]; exact create_request_fields m⟩

/-- Claim C6 witness: `{"displayName": "x", "notAllowed": "y"}` produces
the same write request as `{"displayName": "x"}` alone. -/
theorem c6_witness :
    create_application_request (("notAllowed", J.str "y") :: [("displayName", J.str "x")]) =
      create_application_request [("displayName", J.str "x")] :=
  (c6_write_allowlist [("displayName", J.str "x")] "notAllowed" (J.str "y")
    (by decide)).1

/-! ## Record-shape lemmas -/

theorem noNullB_str (s : String) : noNullB (J.str s) = true := rfl

theorem noNullB_bool (b : Bool) : noNullB (J.bool b) = true := rfl

theorem noNullB_num (n : Int) : noNullB (J.num n) = true := rfl

theorem noNullB_arr (xs : List J) : noNullB (J.arr xs) = noNullArr xs := rfl

theorem noNullB_obj (kvs : List (String × J)) : noNullB (J.obj kvs) = noNullObj kvs := rfl

theorem noNullObj_nil : noNullObj [] = true := rfl

theorem noNullObj_cons (k : String) (v : J) (kvs : List (String × J)) :
    noNullObj ((k, v) :: kvs) = (noNullB v && noNullObj kvs) := rfl

theorem noNullArr_nil : noNullArr [] = true := rfl

theorem noNullArr_cons (x : J) (xs : List J) :
    noNullArr (x :: xs) = (noNullB x && noNullArr xs) := rfl

theorem noNullArr_append (a b : List J) :
    noNullArr (a ++ b) = (noNullArr a && noNullArr b) := by
  induction a with
  | nil => simp [noNullArr_nil]
  | cons x xs ih => simp [noNullArr_cons, ih, Bool.and_assoc]

theorem noNullArr_map {α : Type} (f : α → J) (h : ∀ x, noNullB (f x) = true) :
    ∀ l : List α, noNullArr (l.map f) = true := by
  intro l
  induction l with
  | nil => rfl
  | cons x xs ih => simp [noNullArr_cons, h x, ih]

/-- The fixed key set of an application record. -/
def applicationKeys : List String :=
  ["id", "appId", "displayName", "createdDateTime", "signInAudience",
   "publisherDomain", "tags"]

/-- The fixed key set of an audit-log record. -/
def auditKeys : List String :=
  ["id", "activityDateTime", "activityDisplayName", "category",
   "operationType", "result", "resultReason", "initiatedBy",
   "targetResources", "loggedByService", "correlationId", "additionalDetails"]

/-- The fourteen keys every sign-in record carries. -/
def signInBaseKeys : List String :=
  ["id", "createdDateTime", "userId", "userDisplayName", "userPrincipalName",
   "appDisplayName", "appId", "ipAddress", "clientAppUsed", "correlationId",
   "isInteractive", "resourceDisplayName", "status", "riskInformation"]

/-- The key set a sign-in record actually gets: the base keys plus
`deviceDetail` and `location` only when the raw object carries them. -/
def signInKeysOf (log : RawSignIn) : List String :=
  signInBaseKeys ++
    (if log.device_detail.isSome then ["deviceDetail"] else []) ++
    (if log.location.isSome then ["location"] else [])

/-- `status` is absent, or present with both pass-through fields present:
the condition under which a sign-in record is null-free. -/
def statusOk (st : Option SignInStatus) : Bool :=
  match st with
  | none => true
  | some s => s.failure_reason.isSome && s.additional_details.isSome

theorem keysOf_normalizeApplication (app : RawApp) :
    keysOf (normalizeApplication app) = applicationKeys := rfl

theorem noNull_normalizeApplication (app : RawApp) :
    noNullB (normalizeApplication app) = true := by
  simp [normalizeApplication, appFields, noNullB_obj, noNullObj_cons,
    noNullObj_nil, noNullB_str, noNullB_arr,
    noNullArr_map J.str (fun s => noNullB_str s)]

theorem keysOf_appRecordWith (app : RawApp) (roles grants : List J) :
    keysOf (appRecordWith app roles grants) =
      applicationKeys ++ ["appRoleAssignments", "oauth2PermissionGrants"] := rfl

theorem noNull_appRecordWith (app : RawApp) (roles grants : List J)
    (h1 : noNullArr roles = true) (h2 : noNullArr grants = true) :
    noNullB (appRecordWith app roles grants) = true := by
  simp [appRecordWith, appFields, noNullB_obj, noNullObj_cons, noNullObj_nil,
    noNullB_str, noNullB_arr, h1, h2,
    noNullArr_map J.str (fun s => noNullB_str s)]

theorem noNull_normalizeAppRoleAssignment (a : RawAppRoleAssignment) :
    noNullB (normalizeAppRoleAssignment a) = true := rfl

theorem noNull_normalizeOauth2PermissionGrant (g : RawOauth2PermissionGrant) :
    noNullB (normalizeOauth2PermissionGrant g) = true := rfl

theorem noNull_subCollectionLoop {α : Type} (norm : α → J)
    (h : ∀ x, noNullB (norm x) = true) :
    ∀ (stream : List (Call (Option (GraphResponse α))))
      (response : Option (GraphResponse α)) (acc : List J),
      noNullArr acc = true →
      noNullArr (subCollectionLoop norm stream response acc) = true := by
  intro stream
  induction stream with
  | nil =>
    intro response acc hacc
    cases response with
    | none => simpa [subCollectionLoop] using hacc
    | some r =>
      obtain ⟨rv, rnl⟩ := r
      cases rnl <;>
        simp [subCollectionLoop, noNullArr_append, hacc, noNullArr_map norm h]
  | cons c rest ih =>
    intro response acc hacc
    cases response with
    | none => simpa [subCollectionLoop] using hacc
    | some r =>
      obtain ⟨rv, rnl⟩ := r
      have hacc2 : noNullArr (acc ++ (rv.getD []).map norm) = true := by
        simp [noNullArr_append, hacc, noNullArr_map norm h]
      cases rnl with
      | none => simpa [subCollectionLoop] using hacc2
      | some u =>
        cases c with
        | error e => simpa [subCollectionLoop] using hacc2
        | ok r2 =>
          have hrec := ih r2 (acc ++ (rv.getD []).map norm) hacc2
          simpa [subCollectionLoop] using hrec

theorem noNull_fetchSubCollection {α : Type} (norm : α → J)
    (h : ∀ x, noNullB (norm x) = true)
    (first : Call (Option (GraphResponse α)))
    (stream : List (Call (Option (GraphResponse α)))) :
    noNullArr (fetchSubCollection norm first stream) = true := by
  cases first with
  | error e => rfl
  | ok resp => exact noNull_subCollectionLoop norm h stream resp [] rfl

theorem keysOf_normalizeAuditLog (log : RawAudit) :
    keysOf (normalizeAuditLog log) = auditKeys := rfl

theorem noNull_normalizeAuditKV (kv : AuditKV) :
    noNullB (normalizeAuditKV kv) = true := rfl

theorem noNull_normalizeModifiedProperty (mp : AuditModifiedProperty) :
    noNullB (normalizeModifiedProperty mp) = true := rfl

theorem noNull_normalizeTargetResource (tr : AuditTargetResource) :
    noNullB (normalizeTargetResource tr) = true := by
  simp [normalizeTargetResource, noNullB_obj, noNullObj_cons, noNullObj_nil,
    noNullB_str, noNullB_arr,
    noNullArr_map normalizeModifiedProperty noNull_normalizeModifiedProperty]

theorem noNull_normalizeInitiatedBy (ib : Option AuditInitiatedBy) :
    noNullB (normalizeInitiatedBy ib) = true := by
  cases ib with
  | none => rfl
  | some b =>
    cases hu : b.user <;> cases ha : b.app <;>
      simp [normalizeInitiatedBy, hu, ha, noNullB_obj, noNullObj_cons,
        noNullObj_nil, noNullB_str]

theorem noNull_normalizeAuditLog (log : RawAudit) :
    noNullB (normalizeAuditLog log) = true := by
  simp [normalizeAuditLog, noNullB_obj, noNullObj_cons, noNullObj_nil,
    noNullB_str, noNullB_arr, noNull_normalizeInitiatedBy,
    noNullArr_map normalizeTargetResource noNull_normalizeTargetResource,
    noNullArr_map normalizeAuditKV noNull_normalizeAuditKV]

theorem noNull_normalizeRiskInformation (log : RawSignIn) :
    noNullB (normalizeRiskInformation log) = true := by
  simp [normalizeRiskInformation, noNullB_obj, noNullObj_cons, noNullObj_nil,
    noNullB_str, noNullB_arr, noNullArr_map J.str (fun s => noNullB_str s)]

theorem noNull_normalizeSignInStatus (st : Option SignInStatus)
    (h : statusOk st = true) : noNullB (normalizeSignInStatus st) = true := by
  cases st with
  | none => rfl
  | some s =>
    simp only [statusOk, Bool.and_eq_true, Option.isSome_iff_exists] at h
    obtain ⟨⟨fr, hfr⟩, ⟨ad, had⟩⟩ := h
    cases hec : s.error_code <;>
      simp [normalizeSignInStatus, hfr, had, hec, noNullB_obj, noNullObj_cons,
        noNullObj_nil, noNullB_str, noNullB_num]

theorem noNull_normalizeDeviceDetail (d : SignInDeviceDetail) :
    noNullB (normalizeDeviceDetail d) = true := rfl

theorem noNull_normalizeLocation (loc : SignInLocation) :
    noNullB (normalizeLocation loc) = true := by
  cases hg : loc.geo_coordinates <;>
    simp [normalizeLocation, hg, noNullB_obj, noNullObj_cons, noNullObj_nil,
      noNullB_str, noNullB_num]

theorem keysOf_normalizeSignInLog (log : RawSignIn) :
    keysOf (normalizeSignInLog log) = signInKeysOf log := by
  cases hd : log.device_detail <;> cases hl : log.location <;>
    simp [normalizeSignInLog, signInKeysOf, signInBaseKeys, hd, hl, keysOf]

theorem noNull_normalizeSignInLog (log : RawSignIn)
    (h : statusOk log.status = true) :
    noNullB (normalizeSignInLog log) = true := by
  cases hd : log.device_detail <;> cases hl : log.location <;>
    simp [normalizeSignInLog, hd, hl, noNullB_obj, noNullObj_cons,
      noNullObj_nil, noNullB_str, noNullB_bool,
      noNull_normalizeSignInStatus log.status h,
      noNull_normalizeRiskInformation, noNull_normalizeDeviceDetail,
      noNull_normalizeLocation]

/-! ## Operation output shapes -/

theorem get_user_audit_logs_ok_shape (first : Call (Option (GraphResponse RawAudit)))
    (stream : List (Call (Option (GraphResponse RawAudit)))) (out : List J)
    (h : get_user_audit_logs first stream = .ok out) :
    ∃ raws : List RawAudit, out = raws.map normalizeAuditLog := by
  cases first with
  | error e => simp [get_user_audit_logs] at h
  | ok resp =>
    rw [show get_user_audit_logs (.ok resp) stream =
        (match auditPageLoop stream resp (respValues resp) with
          | .error e => .error e
          | .ok logs => .ok (logs.map normalizeAuditLog)) from rfl] at h
    cases hres : auditPageLoop stream resp (respValues resp) with
    | error e => rw [hres] at h; exact absurd h (by simp)
    | ok logs => rw [hres] at h; exact ⟨logs, (Except.ok.inj h).symm⟩

theorem get_user_sign_in_logs_ok_shape (first : Call (Option (GraphResponse RawSignIn)))
    (stream : List (Call (Option (GraphResponse RawSignIn)))) (out : List J)
    (h : get_user_sign_in_logs first stream = .ok out) :
    ∃ raws : List RawSignIn, out = raws.map normalizeSignInLog := by
  cases first with
  | error e => simp [get_user_sign_in_logs] at h
  | ok resp =>
    refine ⟨respValues resp, ?_⟩
    have : get_user_sign_in_logs (.ok resp) stream =
        .ok ((respValues resp).map normalizeSignInLog) := rfl
    rw [this] at h
    exact (Except.ok.inj h).symm

theorem get_application_by_id_ok_shape (appCall : Call (Option RawApp))
    (spCall : Call (Option RawServicePrincipal))
    (roleFirst : Call (Option (GraphResponse RawAppRoleAssignment)))
    (roleStream : List (Call (Option (GraphResponse RawAppRoleAssignment))))
    (grantFirst : Call (Option (GraphResponse RawOauth2PermissionGrant)))
    (grantStream : List (Call (Option (GraphResponse RawOauth2PermissionGrant))))
    (rec : J)
    (h : get_application_by_id appCall spCall roleFirst roleStream grantFirst grantStream
      = .ok (some rec)) :
    ∃ (app : RawApp) (roles grants : List J),
      rec = appRecordWith app roles grants ∧
      noNullArr roles = true ∧ noNullArr grants = true := by
  cases appCall with
  | error e => simp [get_application_by_id] at h
  | ok oapp =>
    cases oapp with
    | none => simp [get_application_by_id] at h
    | some app =>
      cases spCall with
      | error e => simp [get_application_by_id] at h
      | ok osp =>
        cases osp with
        | none =>
          refine ⟨app, [], [], ?_, rfl, rfl⟩
          have : get_application_by_id (.ok (some app)) (.ok none)
              roleFirst roleStream grantFirst grantStream =
            .ok (some (appRecordWith app [] [])) := rfl
          rw [this] at h
          exact (Option.some.inj (Except.ok.inj h)).symm
        | some sp =>
          refine ⟨app,
            fetchSubCollection normalizeAppRoleAssignment roleFirst roleStream,
            fetchSubCollection normalizeOauth2PermissionGrant grantFirst grantStream,
            ?_,
            noNull_fetchSubCollection _ noNull_normalizeAppRoleAssignment _ _,
            noNull_fetchSubCollection _ noNull_normalizeOauth2PermissionGrant _ _⟩
          have : get_application_by_id (.ok (some app)) (.ok (some sp))
              roleFirst roleStream grantFirst grantStream =
            .ok (some (appRecordWith app
              (fetchSubCollection normalizeAppRoleAssignment roleFirst roleStream)
              (fetchSubCollection normalizeOauth2PermissionGrant grantFirst grantStream))) := rfl
          rw [this] at h
          exact (Option.some.inj (Except.ok.inj h)).symm

/-! ## Claim theorems: record shape -/

/-- A sign-in entry whose `status` object is present but carries neither a
failure reason nor additional details. -/
def signInNullStatus : RawSignIn := { status := some {} }

/-- A sign-in entry carrying a `device_detail` object. -/
def signInWithDevice : RawSignIn := { device_detail := some {} }

/-- Claim C2 counterexample: a sign-in record produced by
`get_user_sign_in_logs` from an entry whose `status` is present with an
absent failure reason contains a `null` value, and the key set of sign-in
records is not fixed — `deviceDetail` appears only when the source
carries a device object. -/
theorem c2_counterexample :
    get_user_sign_in_logs
        (.ok (some { value := some [signInNullStatus], odata_next_link := none })) [] =
      .ok [normalizeSignInLog signInNullStatus] ∧
    noNullB (normalizeSignInLog signInNullStatus) = false ∧
    (keysOf (normalizeSignInLog signInNullStatus)).contains "deviceDetail" = false ∧
    (keysOf (normalizeSignInLog signInWithDevice)).contains "deviceDetail" = true := by
  exact ⟨rfl, by decide, by decide, by decide⟩

/-- Claim C2 (amended): application records (from `list_applications` and
`get_application_by_id`) and audit-log records have key sets fixed per
entity type and contain no nulls, every absent source field becoming its
type's empty/zero default.  Sign-in records carry a fixed fourteen-key
base, but `deviceDetail` and `location` are present only when the remote
object populated them, and `status.failureReason` /
`status.additionalDetails` are passed through unchanged — they are null
exactly when `status` is present with that field absent. -/
theorem c2_normalized_record_shape :
    (∀ app : RawApp, keysOf (normalizeApplication app) = applicationKeys ∧
      noNullB (normalizeApplication app) = true) ∧
    (∀ first stream out, get_user_audit_logs first stream = .ok out →
      ∀ r ∈ out, keysOf r = auditKeys ∧ noNullB r = true) ∧
    (∀ appCall spCall roleFirst roleStream grantFirst grantStream rec,
      get_application_by_id appCall spCall roleFirst roleStream grantFirst grantStream
        = .ok (some rec) →
      keysOf rec = applicationKeys ++ ["appRoleAssignments", "oauth2PermissionGrants"] ∧
      noNullB rec = true) ∧
    (∀ first stream out, get_user_sign_in_logs first stream = .ok out →
      ∀ r ∈ out, ∃ log : RawSignIn, r = normalizeSignInLog log ∧
        keysOf r = signInKeysOf log ∧
        (statusOk log.status = true → noNullB r = true)) := by
  refine ⟨fun app => ⟨keysOf_normalizeApplication app, noNull_normalizeApplication app⟩,
    ?_, ?_, ?_⟩
  · intro first stream out h r hr
    obtain ⟨raws, rfl⟩ := get_user_audit_logs_ok_shape first stream out h
    obtain ⟨x, hx, rfl⟩ := List.mem_map.mp hr
    exact ⟨keysOf_normalizeAuditLog x, noNull_normalizeAuditLog x⟩
  · intro appCall spCall roleFirst roleStream grantFirst grantStream rec h
    obtain ⟨app, roles, grants, rfl, hroles, hgrants⟩ :=
      get_application_by_id_ok_shape appCall spCall roleFirst roleStream
        grantFirst grantStream rec h
    exact ⟨keysOf_appRecordWith app roles grants,
      noNull_appRecordWith app roles grants hroles hgrants⟩
  · intro first stream out h r hr
    obtain ⟨raws, rfl⟩ := get_user_sign_in_logs_ok_shape first stream out h
    obtain ⟨x, hx, rfl⟩ := List.mem_map.mp hr
    exact ⟨x, rfl, keysOf_normalizeSignInLog x,
      fun hst => noNull_normalizeSignInLog x hst⟩
